import Mathlib

/-
Verification of the Gemini JSON diff agent.

The program is a Flask service with one interesting endpoint, POST /diff:
it downloads two named objects from a GCS bucket, asks a text-generation
model for a JSON diff of their contents, cleans the model response, and
answers with a JSON body.  The repository ships three handler variants:

  * src/agent.py                        -- main program (parses the model
                                           output with json.loads; has NO
                                           cleanup step)
  * src/solutions/agent_clean_up.py     -- adds a finally-block cleanup that
                                           deletes both objects and swallows
                                           deletion failures; returns the raw
                                           model text without parsing it

The external collaborators are modelled explicitly:
  * the blob store is an association list from object name to text content;
  * the model call is an oracle `modelResponse : Option String`
    (`none` models generate_content raising);
  * json.loads is an oracle `parseJson : String -> Option J`
    (`none` models a parse error being raised).

Execution of a handler yields the HTTP response plus an observation trace:
which object names had their blobs consulted for download, how many model
calls happened, which blobs had delete() invoked on them, and the final
store contents.
-/

namespace AgentDeployment

/-- Character-list form of Python str.strip(): drop whitespace from both
ends of the list. -/
def stripList (l : List Char) : List Char :=
  ((l.dropWhile Char.isWhitespace).reverse.dropWhile Char.isWhitespace).reverse

/-- Embedding of Python `s.strip()`. -/
def pyStrip (s : String) : String := String.mk (stripList s.data)

/-- Embedding of Python `s.startswith(pre)`. -/
def pyStarts (s pre : String) : Bool := pre.data.isPrefixOf s.data

/-- Embedding of the Python slice `s[7:-3]` (empty when the string has
fewer than 10 characters, as in Python). -/
def pySliceSevenMinusThree (s : String) : String :=
  String.mk ((s.data.drop 7).take ((s.data.drop 7).length - 3))

/-- The fence marker tested by `raw_text.startswith("```json")`. -/
def fenceMarker : String := "```json"

/-- agent.py line 148: body of the generic 500 answer. -/
def internalErrorMsg : String := "An internal server error occurred."

/-- agent.py line 128: body of the 400 answer for missing fields. -/
def missingFieldsMsg : String := "Missing \x27file1\x27 or \x27file2\x27 in request"

/-- agent.py lines 50 and 65: message of the not-configured exception. -/
def notConfiguredMsg : String := "Storage client or bucket name not configured."

/-- agent.py line 80: message of the uninitialized-model exception. -/
def geminiNotInitMsg : String := "Gemini model not initialized."

/-- agent.py line 56: message of the FileNotFoundError. -/
def notFoundMsg (file_name : String) : String :=
  "File not found in bucket: " ++ file_name

/-- The GCS bucket, modelled as an association list from object name to
text content. -/
abbrev Store := List (String × String)

/-- `blob.exists()` for the named object. -/
def Store.existsBlob (s : Store) (n : String) : Bool := (s.lookup n).isSome

/-- `blob.delete()` for the named object: every entry under that name is
removed. -/
def Store.deleteBlob (s : Store) (n : String) : Store :=
  s.filter (fun p => p.1 != n)

/-- The two kinds of Python exception the handler distinguishes:
`FileNotFoundError` (caught by the inner handler, mapped to 404) and any
other `Exception` (caught by the outer handler, mapped to 500). -/
inductive PyExc where
  | fileNotFound (msg : String)
  | generic (msg : String)
deriving DecidableEq

/-- agent.py lines 47-59, `download_file_from_gcs`: raises the
not-configured exception before touching the client when the storage
client is absent or the bucket name is falsy; raises FileNotFoundError
when the blob does not exist; otherwise returns the blob text. -/
def download_file_from_gcs (hasStorageClient : Bool) (bucketName : String)
    (store : Store) (file_name : String) : Except PyExc String :=
  if !hasStorageClient || bucketName == "" then
    .error (.generic notConfiguredMsg)
  else
    match store.lookup file_name with
    | none => .error (.fileNotFound (notFoundMsg file_name))
    | some content => .ok content

/-- Whether `download_file_from_gcs` reaches the blob store at all (it
raises before any client call when unconfigured). -/
def downloadTouchesStore (hasStorageClient : Bool) (bucketName : String) : Bool :=
  hasStorageClient && bucketName != ""

/-- agent.py lines 62-74, `delete_file_from_gcs`: raises the
not-configured exception when unconfigured; when the blob exists it calls
`blob.delete()` (whose own failure is modelled by the oracle
`deleteFails`); when absent it logs a warning and returns normally.
The Bool of the result records whether `blob.delete()` removed the blob. -/
def delete_file_from_gcs (hasStorageClient : Bool) (bucketName : String)
    (deleteFails : String → Bool) (store : Store) (file_name : String) :
    Except PyExc (Store × Bool) :=
  if !hasStorageClient || bucketName == "" then
    .error (.generic notConfiguredMsg)
  else if (store.lookup file_name).isSome then
    if deleteFails file_name then
      .error (.generic "delete failed")
    else
      .ok (Store.deleteBlob store file_name, true)
  else
    .ok (store, false)

/-- agent.py lines 105-111: strip the raw model text; if it starts with
the JSON fence marker, take the slice [7:-3] and strip again. -/
def cleanGeminiResponse (raw : String) : String :=
  let t := pyStrip raw
  if pyStarts t fenceMarker then pyStrip (pySliceSevenMinusThree t) else t

/-- agent.py lines 77-111, `get_gemini_diff`: raises when the model handle
is unset; otherwise calls `generate_content` on a prompt embedding both
contents (the outcome of that external call is the oracle
`modelResponse`; `none` models it raising) and cleans the response text. -/
def get_gemini_diff (hasGeminiModel : Bool) (modelResponse : Option String)
    (_file1_content _file2_content : String) : Except PyExc String :=
  if !hasGeminiModel then
    .error (.generic geminiNotInitMsg)
  else
    match modelResponse with
    | none => .error (.generic "Gemini API Error")
    | some t => .ok (cleanGeminiResponse t)

/-- Number of `generate_content` calls `get_gemini_diff` performs: one,
unless it raised before reaching the model. -/
def geminiCallCount (hasGeminiModel : Bool) : Nat :=
  if hasGeminiModel then 1 else 0

/-- Python truthiness of `data.get(...)`: false for a missing field and
for the empty string. -/
def truthy : Option String → Bool
  | none => false
  | some s => !(s == "")

/-- The request body as the handler sees it.  `malformed` covers every
body for which `request.get_json()` raises or returns a non-object, so
that `data.get(...)` raises (absent body, invalid JSON, JSON non-object);
`fields` carries the two extracted fields, `none` when absent. -/
inductive ReqBody where
  | malformed
  | fields (file1 file2 : Option String)
deriving DecidableEq

/-- A response body: an error message, a parsed-JSON diff (agent.py), or
a raw-text diff (agent_clean_up.py). -/
inductive RespBody (J : Type) where
  | err (msg : String)
  | diffJson (j : J)
  | diffText (t : String)
deriving DecidableEq

/-- An HTTP response: status code and JSON body. -/
structure Response (J : Type) where
  status : Nat
  body : RespBody J
deriving DecidableEq

/-- One handler execution: the response plus the observation trace of
external effects. -/
structure RunResult (J : Type) where
  resp : Response J
  /-- names whose blob was consulted by a download attempt -/
  downloads : List String
  /-- number of generate_content calls -/
  modelCalls : Nat
  /-- names on which blob.delete() removed the blob -/
  deletes : List String
  /-- final bucket contents -/
  store : Store
deriving DecidableEq

namespace Agent

/-- src/agent.py lines 116-148, `handle_diff_request`: validate, download
both objects (FileNotFoundError becomes 404), ask the model, parse the
cleaned text with json.loads (`parseJson`), answer 200 with the parsed
value; every other exception becomes the generic 500.  This handler has
no cleanup step: no delete call occurs on any path. -/
def handle_diff_request {J : Type} (hasStorageClient : Bool)
    (bucketName : String) (hasGeminiModel : Bool)
    (parseJson : String → Option J) (store : Store) (reqBody : ReqBody)
    (modelResponse : Option String) : RunResult J :=
  match reqBody with
  | .malformed => ⟨⟨500, .err internalErrorMsg⟩, [], 0, [], store⟩
  | .fields file1 file2 =>
    if !truthy file1 || !truthy file2 then
      ⟨⟨400, .err missingFieldsMsg⟩, [], 0, [], store⟩
    else
      let f1 := file1.getD ""
      let f2 := file2.getD ""
      let touched := downloadTouchesStore hasStorageClient bucketName
      match download_file_from_gcs hasStorageClient bucketName store f1 with
      | .error (.fileNotFound m) =>
        ⟨⟨404, .err m⟩, if touched then [f1] else [], 0, [], store⟩
      | .error (.generic _) =>
        ⟨⟨500, .err internalErrorMsg⟩, [], 0, [], store⟩
      | .ok c1 =>
        match download_file_from_gcs hasStorageClient bucketName store f2 with
        | .error (.fileNotFound m) =>
          ⟨⟨404, .err m⟩, [f1, f2], 0, [], store⟩
        | .error (.generic _) =>
          ⟨⟨500, .err internalErrorMsg⟩, [f1], 0, [], store⟩
        | .ok c2 =>
          let mc := geminiCallCount hasGeminiModel
          match get_gemini_diff hasGeminiModel modelResponse c1 c2 with
          | .error _ =>
            ⟨⟨500, .err internalErrorMsg⟩, [f1, f2], mc, [], store⟩
          | .ok cleaned =>
            match parseJson cleaned with
            | none =>
              ⟨⟨500, .err internalErrorMsg⟩, [f1, f2], mc, [], store⟩
            | some j =>
              ⟨⟨200, .diffJson j⟩, [f1, f2], mc, [], store⟩

end Agent

namespace CleanUp

/-- Outcome of the try/except part of agent_clean_up.py's
`handle_diff_request` (everything before the finally block), together
with the values the local variables `file1_name` / `file2_name` hold when
the finally block starts. -/
structure Primary where
  resp : Response Unit
  downloads : List String
  modelCalls : Nat
  file1_name : Option String
  file2_name : Option String
deriving DecidableEq

/-- src/solutions/agent_clean_up.py lines 103-132: the try/except body.
Identical control flow to agent.py's handler except that the success
answer carries the raw cleaned text (no json.loads).  `file1_name` and
`file2_name` are `none` until line 110-111 assigns them. -/
def primarySteps (hasStorageClient : Bool) (bucketName : String)
    (hasGeminiModel : Bool) (store : Store) (reqBody : ReqBody)
    (modelResponse : Option String) : Primary :=
  match reqBody with
  | .malformed => ⟨⟨500, .err internalErrorMsg⟩, [], 0, none, none⟩
  | .fields file1 file2 =>
    if !truthy file1 || !truthy file2 then
      ⟨⟨400, .err missingFieldsMsg⟩, [], 0, file1, file2⟩
    else
      let f1 := file1.getD ""
      let f2 := file2.getD ""
      let touched := downloadTouchesStore hasStorageClient bucketName
      match download_file_from_gcs hasStorageClient bucketName store f1 with
      | .error (.fileNotFound m) =>
        ⟨⟨404, .err m⟩, if touched then [f1] else [], 0, file1, file2⟩
      | .error (.generic _) =>
        ⟨⟨500, .err internalErrorMsg⟩, [], 0, file1, file2⟩
      | .ok c1 =>
        match download_file_from_gcs hasStorageClient bucketName store f2 with
        | .error (.fileNotFound m) =>
          ⟨⟨404, .err m⟩, [f1, f2], 0, file1, file2⟩
        | .error (.generic _) =>
          ⟨⟨500, .err internalErrorMsg⟩, [f1], 0, file1, file2⟩
        | .ok c2 =>
          let mc := geminiCallCount hasGeminiModel
          match get_gemini_diff hasGeminiModel modelResponse c1 c2 with
          | .error _ =>
            ⟨⟨500, .err internalErrorMsg⟩, [f1, f2], mc, file1, file2⟩
          | .ok cleaned =>
            ⟨⟨200, .diffText cleaned⟩, [f1, f2], mc, file1, file2⟩

/-- src/solutions/agent_clean_up.py lines 134-147: the finally block.
Inside its own try/except it deletes `file1_name` then `file2_name`
(each only when truthy); the first delete raising skips the second, and
any exception is swallowed after logging.  Returns the final store and
the names on which blob.delete() removed a blob. -/
def cleanupStep (hasStorageClient : Bool) (bucketName : String)
    (deleteFails : String → Bool) (store : Store)
    (file1_name file2_name : Option String) : Store × List String :=
  match (if truthy file1_name then
      delete_file_from_gcs hasStorageClient bucketName deleteFails store
        (file1_name.getD "")
    else .ok (store, false)) with
  | .error _ => (store, [])
  | .ok (s1, c1) =>
    let l1 := if c1 then [file1_name.getD ""] else []
    match (if truthy file2_name then
        delete_file_from_gcs hasStorageClient bucketName deleteFails s1
          (file2_name.getD "")
      else .ok (s1, false)) with
    | .error _ => (s1, l1)
    | .ok (s2, c2) =>
      (s2, l1 ++ (if c2 then [file2_name.getD ""] else []))

/-- src/solutions/agent_clean_up.py `handle_diff_request`: the try/except
body determines the response; the finally block then runs the best-effort
cleanup, which can only change the store, never the response (the finally
block contains no return and swallows its own exceptions). -/
def handle_diff_request (hasStorageClient : Bool) (bucketName : String)
    (hasGeminiModel : Bool) (deleteFails : String → Bool) (store : Store)
    (reqBody : ReqBody) (modelResponse : Option String) : RunResult Unit :=
  let p := primarySteps hasStorageClient bucketName hasGeminiModel store
    reqBody modelResponse
  let c := cleanupStep hasStorageClient bucketName deleteFails store
    p.file1_name p.file2_name
  ⟨p.resp, p.downloads, p.modelCalls, c.2, c.1⟩

end CleanUp

/-- The backquote character, written via its code point. -/
def bq : Char := Char.ofNat 96

theorem bq_not_ws : bq.isWhitespace = false := by decide

/-- stripping removes nothing from a list that starts and ends with
non-whitespace characters. -/
theorem stripList_of_ends (c d : Char) (m : List Char)
    (hc : c.isWhitespace = false) (hd : d.isWhitespace = false) :
    stripList (c :: (m ++ [d])) = c :: (m ++ [d]) := by
  simp [stripList, List.dropWhile_cons, hc, hd, List.reverse_append,
    List.dropWhile]

theorem wrapped_data (R : String) :
    ("```json" ++ R ++ "```").data
      = bq :: (("``json".data ++ R.data ++ "``".data) ++ [bq]) := by
  have h1 : "```json".data = bq :: "``json".data := by decide
  have h2 : "```".data = "``".data ++ [bq] := by decide
  simp [String.data_append, h1, h2]
  decide

theorem pyStrip_wrapped (R : String) :
    pyStrip ("```json" ++ R ++ "```") = "```json" ++ R ++ "```" := by
  unfold pyStrip
  rw [wrapped_data, stripList_of_ends bq bq _ bq_not_ws bq_not_ws, ← wrapped_data]

theorem pyStarts_wrapped (R : String) :
    pyStarts ("```json" ++ R ++ "```") fenceMarker = true := by
  unfold pyStarts
  have hd : ("```json" ++ R ++ "```").data
      = fenceMarker.data ++ (R.data ++ "```".data) := by
    simp [String.data_append, fenceMarker]
  rw [hd]
  exact (List.isPrefixOf_iff_prefix).mpr (List.prefix_append _ _)

theorem pySlice_wrapped (R : String) :
    pySliceSevenMinusThree ("```json" ++ R ++ "```") = R := by
  unfold pySliceSevenMinusThree
  have hd : ("```json" ++ R ++ "```").data
      = fenceMarker.data ++ (R.data ++ "```".data) := by
    simp [String.data_append, fenceMarker]
  have h7 : (7 : Nat) = fenceMarker.data.length := by decide
  rw [hd, h7, List.drop_left]
  have h3 : (R.data ++ "```".data).length - 3 = R.data.length := by
    simp
  rw [h3]
  have h4 : "```".data.length = 3 := by decide
  rw [List.take_append_of_le_length (by simp), List.take_length]

/-- C6 (amended): fence-wrapping is invisible to the response cleaning
whenever the wrapped text does not itself begin with the fence marker
after stripping. -/
theorem fence_strip_invariant_amended (R : String)
    (h : pyStarts (pyStrip R) fenceMarker = false) :
    cleanGeminiResponse ("```json" ++ R ++ "```") = cleanGeminiResponse R := by
  simp only [cleanGeminiResponse, pyStrip_wrapped, pyStarts_wrapped,
    pySlice_wrapped, if_true, h, if_false, Bool.false_eq_true]

/-- C6 witness: for a plain model response the amended invariant holds
at a concrete input. -/
theorem fence_strip_invariant_amended_witness :
    pyStarts (pyStrip "plain") fenceMarker = false ∧
    cleanGeminiResponse ("```json" ++ "plain" ++ "```") =
      cleanGeminiResponse "plain" :=
  ⟨by decide, fence_strip_invariant_amended "plain" (by decide)⟩

/-- C6 counterexample: a model response that is itself a fenced block is
unwrapped once more on the bare path than on the wrapped path, so the
claimed equality fails (the wrapped path yields the inner fenced block,
the bare path yields its contents). -/
theorem fence_strip_not_invariant :
    ¬ (cleanGeminiResponse ("```json" ++ "```json\x7b\x7d```" ++ "```") =
        cleanGeminiResponse "```json\x7b\x7d```") := by
  decide

/-- C1: with both objects in the bucket and the model call raising,
src/agent.py answers 500 but performs no deletion at all (empty delete
trace, final store unchanged), while its own test suite and docstring
require both objects deleted exactly once; the agent_clean_up.py variant
does answer 500 and deletes both objects exactly once. -/
theorem agent_model_failure_skips_cleanup :
    (Agent.handle_diff_request true "bucket" true (fun _ => (none : Option Nat))
        [("file1.json", "contentA"), ("file2.json", "contentB")]
        (.fields (some "file1.json") (some "file2.json")) none =
      ⟨⟨500, .err internalErrorMsg⟩, ["file1.json", "file2.json"], 1, [],
        [("file1.json", "contentA"), ("file2.json", "contentB")]⟩) ∧
    (CleanUp.handle_diff_request true "bucket" true (fun _ => false)
        [("file1.json", "contentA"), ("file2.json", "contentB")]
        (.fields (some "file1.json") (some "file2.json")) none =
      ⟨⟨500, .err internalErrorMsg⟩, ["file1.json", "file2.json"], 1,
        ["file1.json", "file2.json"], []⟩) :=
  ⟨by decide, by decide⟩

/-- C2: on the happy path (both objects present, model answers the valid
JSON text R) src/agent.py answers 200 with the parsed value but deletes
neither object (empty delete trace, final store unchanged), while the
claim requires both deleted exactly once; the agent_clean_up.py variant
deletes both exactly once but answers with the raw text R, not with the
parsed value. -/
theorem agent_success_skips_cleanup :
    (Agent.handle_diff_request true "bucket" true
        (fun s => if s == "RDIFF" then some 7 else (none : Option Nat))
        [("file1.json", "contentA"), ("file2.json", "contentB")]
        (.fields (some "file1.json") (some "file2.json")) (some "RDIFF") =
      ⟨⟨200, .diffJson 7⟩, ["file1.json", "file2.json"], 1, [],
        [("file1.json", "contentA"), ("file2.json", "contentB")]⟩) ∧
    (CleanUp.handle_diff_request true "bucket" true (fun _ => false)
        [("file1.json", "contentA"), ("file2.json", "contentB")]
        (.fields (some "file1.json") (some "file2.json")) (some "RDIFF") =
      ⟨⟨200, .diffText "RDIFF"⟩, ["file1.json", "file2.json"], 1,
        ["file1.json", "file2.json"], []⟩) :=
  ⟨by decide, by decide⟩

/-- C10: when the request body is absent, unparseable, or not a JSON
object, the handler answers the generic 500 (not 400) and performs no
blob-store download, no deletion, and no model call. -/
theorem agent_malformed_body_yields_500 {J : Type} (hs : Bool)
    (bn : String) (hg : Bool) (parseJson : String → Option J)
    (store : Store) (mr : Option String) :
    Agent.handle_diff_request hs bn hg parseJson store .malformed mr =
      ⟨⟨500, .err internalErrorMsg⟩, [], 0, [], store⟩ := rfl

/-- C7: in the agent_clean_up.py handler, the response is determined by
the try/except body alone; whether the cleanup deletions fail (any
failure oracle `df`) never changes the status or body returned. -/
theorem cleanup_failure_never_changes_response (hs : Bool) (bn : String)
    (hg : Bool) (df : String → Bool) (store : Store) (reqBody : ReqBody)
    (mr : Option String) :
    (CleanUp.handle_diff_request hs bn hg df store reqBody mr).resp =
      (CleanUp.handle_diff_request hs bn hg (fun _ => false) store reqBody
        mr).resp := rfl

/-- C4: a request whose `file1` or `file2` field is missing or empty is
answered 400 with no blob-store call (no download, no delete) and no
model call, for any configuration and store. -/
theorem agent_missing_fields_yields_400 {J : Type} (hs : Bool)
    (bn : String) (hg : Bool) (parseJson : String → Option J)
    (store : Store) (file1 file2 : Option String) (mr : Option String)
    (h : (!truthy file1 || !truthy file2) = true) :
    Agent.handle_diff_request hs bn hg parseJson store
        (.fields file1 file2) mr =
      ⟨⟨400, .err missingFieldsMsg⟩, [], 0, [], store⟩ := by
  simp [Agent.handle_diff_request, h]

/-- C4 witness: a request missing `file2` at a concrete store. -/
theorem agent_missing_fields_yields_400_witness :
    ((!truthy (some "a") || !truthy none) = true) ∧
    Agent.handle_diff_request true "bucket" true (fun _ => (none : Option Nat))
        [("a", "1")] (.fields (some "a") none) none =
      ⟨⟨400, .err missingFieldsMsg⟩, [], 0, [], [("a", "1")]⟩ :=
  ⟨by decide,
    agent_missing_fields_yields_400 true "bucket" true _ _ _ _ _ (by decide)⟩

/-- C3: with valid field names and at least one named object absent, the
handler of src/agent.py answers 404 with a message naming a missing
object, attempts no deletion, and leaves the store unchanged. -/
theorem agent_missing_object_yields_404 {J : Type}
    (parseJson : String → Option J) (bn : String) (store : Store)
    (f1 f2 : String) (mr : Option String)
    (hbn : (bn == "") = false)
    (h1 : (f1 == "") = false) (h2 : (f2 == "") = false)
    (hmiss : store.lookup f1 = none ∨ store.lookup f2 = none) :
    ∃ m, (m = f1 ∨ m = f2) ∧ store.lookup m = none ∧
      (let r := Agent.handle_diff_request true bn true parseJson store
        (.fields (some f1) (some f2)) mr
      r.resp = ⟨404, .err (notFoundMsg m)⟩ ∧ r.deletes = [] ∧
        r.store = store) := by
  cases hc : store.lookup f1 with
  | none =>
    refine ⟨f1, Or.inl rfl, hc, ?_⟩
    simp [Agent.handle_diff_request, truthy, h1, h2,
      download_file_from_gcs, hbn, hc]
  | some c1 =>
    have hf2 : store.lookup f2 = none := by
      cases hmiss with
      | inl h => rw [hc] at h; cases h
      | inr h => exact h
    refine ⟨f2, Or.inr rfl, hf2, ?_⟩
    simp [Agent.handle_diff_request, truthy, h1, h2,
      download_file_from_gcs, hbn, hc, hf2]

/-- C3 witness: first object present, second absent. -/
theorem agent_missing_object_yields_404_witness :
    (([("a", "1")] : Store).lookup "a" = none ∨
      ([("a", "1")] : Store).lookup "b" = none) ∧
    ∃ m, (m = "a" ∨ m = "b") ∧ ([("a", "1")] : Store).lookup m = none ∧
      (let r := Agent.handle_diff_request true "bucket" true
        (fun _ => (none : Option Nat)) [("a", "1")]
        (.fields (some "a") (some "b")) none
      r.resp = ⟨404, .err (notFoundMsg m)⟩ ∧ r.deletes = [] ∧
        r.store = [("a", "1")]) :=
  ⟨Or.inr (by decide),
    agent_missing_object_yields_404 _ "bucket" [("a", "1")] "a" "b" none
      (by decide) (by decide) (by decide) (Or.inr (by decide))⟩

/-- C5: with both objects present and the model returning text whose
stripped, unfenced form json.loads rejects, the handler of src/agent.py
answers the generic 500 rather than a 200 carrying the unparsed text. -/
theorem agent_unparseable_output_yields_500 {J : Type}
    (parseJson : String → Option J) (bn : String) (store : Store)
    (f1 f2 c1 c2 R : String)
    (hbn : (bn == "") = false)
    (h1 : (f1 == "") = false) (h2 : (f2 == "") = false)
    (hl1 : store.lookup f1 = some c1) (hl2 : store.lookup f2 = some c2)
    (hparse : parseJson (cleanGeminiResponse R) = none) :
    Agent.handle_diff_request true bn true parseJson store
        (.fields (some f1) (some f2)) (some R) =
      ⟨⟨500, .err internalErrorMsg⟩, [f1, f2], 1, [], store⟩ := by
  simp [Agent.handle_diff_request, truthy, h1, h2, download_file_from_gcs,
    hbn, hl1, hl2, get_gemini_diff, geminiCallCount, hparse]

/-- C5 witness: a concrete store and a model response the parser
rejects. -/
theorem agent_unparseable_output_yields_500_witness :
    ((fun _ => (none : Option Nat)) (cleanGeminiResponse "not json") =
      none) ∧
    Agent.handle_diff_request true "bucket" true (fun _ => (none : Option Nat))
        [("a", "1"), ("b", "2")] (.fields (some "a") (some "b"))
        (some "not json") =
      ⟨⟨500, .err internalErrorMsg⟩, ["a", "b"], 1, [],
        [("a", "1"), ("b", "2")]⟩ :=
  ⟨rfl,
    agent_unparseable_output_yields_500 _ "bucket" _ "a" "b" "1" "2"
      "not json" (by decide) (by decide) (by decide) (by decide) (by decide)
      rfl⟩

/-- C8: with the two client handles unset (bootstrap failure), each
dependent operation fails with its explicit not-configured error before
touching the client, and a well-formed request is answered with the
generic 500, with no store access, no deletion, and no model call. -/
theorem unconfigured_clients_fail_fast {J : Type} (bn : String)
    (store : Store) (name c1 c2 : String) (df : String → Bool)
    (mr : Option String) (parseJson : String → Option J) (f1 f2 : String)
    (h1 : (f1 == "") = false) (h2 : (f2 == "") = false) :
    download_file_from_gcs false bn store name =
      .error (.generic notConfiguredMsg) ∧
    delete_file_from_gcs false bn df store name =
      .error (.generic notConfiguredMsg) ∧
    get_gemini_diff false mr c1 c2 = .error (.generic geminiNotInitMsg) ∧
    Agent.handle_diff_request false bn false parseJson store
        (.fields (some f1) (some f2)) mr =
      ⟨⟨500, .err internalErrorMsg⟩, [], 0, [], store⟩ := by
  refine ⟨rfl, rfl, rfl, ?_⟩
  simp [Agent.handle_diff_request, truthy, h1, h2, download_file_from_gcs]

/-- C8 witness: concrete unconfigured run. -/
theorem unconfigured_clients_fail_fast_witness :
    (("a" == "") = false) ∧ (("b" == "") = false) ∧
    download_file_from_gcs false "bucket" [("a", "1")] "a" =
      .error (.generic notConfiguredMsg) ∧
    delete_file_from_gcs false "bucket" (fun _ => false) [("a", "1")] "a" =
      .error (.generic notConfiguredMsg) ∧
    get_gemini_diff false none "1" "2" =
      .error (.generic geminiNotInitMsg) ∧
    Agent.handle_diff_request false "bucket" false
        (fun _ => (none : Option Nat)) [("a", "1")]
        (.fields (some "a") (some "b")) none =
      ⟨⟨500, .err internalErrorMsg⟩, [], 0, [], [("a", "1")]⟩ :=
  ⟨by decide, by decide,
    unconfigured_clients_fail_fast "bucket" [("a", "1")] "a" "1" "2"
      (fun _ => false) none (fun _ => (none : Option Nat)) "a" "b"
      (by decide) (by decide)⟩

/-- after `blob.delete()` no entry under the name remains. -/
theorem lookup_deleteBlob (s : Store) (n : String) :
    (Store.deleteBlob s n).lookup n = none := by
  induction s with
  | nil => rfl
  | cons p t ih =>
    obtain ⟨k, v⟩ := p
    by_cases h : k = n
    · simpa [Store.deleteBlob, List.filter_cons, h] using ih
    · have hk : (k != n) = true := by simpa [bne_iff_ne] using h
      have hnk : (n == k) = false := by
        simpa [beq_eq_false_iff_ne] using Ne.symm h
      simp only [Store.deleteBlob, List.filter_cons] at ih ⊢
      simp [hk, List.lookup, hnk, ih]

/-- C9: deleting an absent object is a raise-free no-op leaving the store
unchanged, and a second deletion of the same name after a first
successful call is such a no-op, so deleting twice equals deleting
once. -/
theorem delete_absent_noop_and_idempotent (bn : String)
    (df : String → Bool) (store : Store) (name : String)
    (hbn : (bn == "") = false) :
    (store.lookup name = none →
      delete_file_from_gcs true bn df store name = .ok (store, false)) ∧
    (∀ s' c, delete_file_from_gcs true bn df store name = .ok (s', c) →
      delete_file_from_gcs true bn df s' name = .ok (s', false)) := by
  constructor
  · intro h
    simp [delete_file_from_gcs, hbn, h]
  · intro s' c hdel
    cases hl : store.lookup name with
    | none =>
      have hd : delete_file_from_gcs true bn df store name =
          .ok (store, false) := by
        simp [delete_file_from_gcs, hbn, hl]
      rw [hd] at hdel
      obtain ⟨hs', _⟩ : store = s' ∧ false = c := by simpa using hdel
      subst hs'
      exact hd
    | some v =>
      cases hdf : df name with
      | true => simp [delete_file_from_gcs, hbn, hl, hdf] at hdel
      | false =>
        have hd : delete_file_from_gcs true bn df store name =
            .ok (Store.deleteBlob store name, true) := by
          simp [delete_file_from_gcs, hbn, hl, hdf]
        rw [hd] at hdel
        obtain ⟨hs', _⟩ : Store.deleteBlob store name = s' ∧ true = c := by
          simpa using hdel
        subst hs'
        simp [delete_file_from_gcs, hbn, lookup_deleteBlob]

/-- C9 witness: deleting an absent object at a concrete store. -/
theorem delete_absent_noop_and_idempotent_witness :
    (("bucket" == "") = false) ∧
    ((([("a", "1")] : Store).lookup "b" = none →
      delete_file_from_gcs true "bucket" (fun _ => false) [("a", "1")] "b" =
        .ok ([("a", "1")], false)) ∧
    (∀ s' c,
      delete_file_from_gcs true "bucket" (fun _ => false) [("a", "1")] "b" =
        .ok (s', c) →
      delete_file_from_gcs true "bucket" (fun _ => false) s' "b" =
        .ok (s', false))) :=
  ⟨by decide,
    delete_absent_noop_and_idempotent "bucket" (fun _ => false)
      [("a", "1")] "b" (by decide)⟩

end AgentDeployment
